import Mathlib

/-!
Shallow embedding of `OneStepSarsaWorker::Step` from
`src/mlpack/methods/reinforcement_learning/worker/one_step_sarsa_worker.hpp`.

Machine doubles are modelled as exact rationals (ℚ); `arma::colvec` action
values as functions `Nat → ℚ`; the network parameter matrix as a function
`ι → ℚ` over an abstract index type `ι`.  The external collaborators
(environment, network forward/backward/predict, policy, optimizer) are
abstract pure functions gathered in a `Collab` structure, matching the
boundary described in §6 of the design document.
-/

/-- Training hyper-parameters (`TrainingConfig`, read-only, §6). -/
structure TrainingConfig where
  stepLimit : Nat
  updateInterval : Nat
  discount : ℚ
  gradientLimit : ℚ
  stepSize : ℚ
  targetNetworkSyncInterval : Nat

/-- A SARSA transition `{state, action, reward, nextState, nextAction}`
(`SarsaWorkerTransitionType`). -/
structure Transition (S : Type) where
  state : S
  action : Nat
  reward : ℚ
  nextState : S
  nextAction : Nat

/-- External collaborators of the worker, per §6: environment sample and
terminal predicate, network predict/forward/backward over parameters
`ι → ℚ`, policy sample and anneal, and the optimizer update.
`numActions` plays the role of `ActionType::size`, the invalid-action
sentinel. -/
structure Collab (S E P ι : Type) where
  encode : S → E
  envSample : S → Nat → ℚ × S
  isTerminal : S → Bool
  predict : (ι → ℚ) → E → Nat → ℚ
  forward : (ι → ℚ) → E → Nat → ℚ
  backward : (ι → ℚ) → E → (Nat → ℚ) → ι → ℚ
  polSample : P → (Nat → ℚ) → Bool → Nat
  anneal : P → P
  updOpt : (ι → ℚ) → ℚ → (ι → ℚ) → ι → ℚ
  numActions : Nat

/-- Worker-local state (the `WorkerBase` data members used by `Step`, plus
the derived class's `action` member).  The pending buffer is modelled as a
list; per the design document (§3) it is a fixed-capacity buffer of size
`UpdateInterval`, so its length is `UpdateInterval` (that file,
`worker_base.hpp`, is not part of the sources; the buffer shape is taken
from the spec). -/
structure Worker (S ι : Type) where
  state : S
  action : Nat
  network : ι → ℚ
  episodeReturn : ℚ
  steps : Nat
  pending : List (Transition S)
  pendingIndex : Nat
  deterministic : Bool

/-- The shared objects passed to `Step` by reference: the learning network,
the target network, the total-step counter and the behavior policy. -/
structure Shared (P ι : Type) where
  learningNetwork : ι → ℚ
  targetNetwork : ι → ℚ
  totalSteps : Nat
  policy : P

/-- Result of one `Step` call: the returned terminal flag, the updated
worker-local state, the updated shared state, and the (out-parameter)
`totalReward` value after the call. -/
structure StepResult (S P ι : Type) where
  terminated : Bool
  worker : Worker S ι
  shared : Shared P ι
  totalReward : ℚ

/-- Modelled from the spec: `worker_base.hpp` is not under src/, so
`WorkerBase::Reset` follows §4.4: action → sentinel, episode return → 0,
step-within-episode counter → 0, `pendingIndex` → 0; buffer contents and
the local network are left untouched (the derived `Reset` at lines 269-273
of the source adds the `action := sentinel` assignment). §4.4 does not
mention the environment state, so it is left unchanged. -/
def resetWorker {S E P ι : Type} (c : Collab S E P ι) (w : Worker S ι) :
    Worker S ι :=
  { w with action := c.numActions, episodeReturn := 0, steps := 0,
           pendingIndex := 0 }

/-- Lines 144-150: if `action` is the sentinel `ActionType::size`, predict
action values at the current state with the local network and sample from
the policy; otherwise keep the current action. -/
def resolvedAction {S E P ι : Type} (c : Collab S E P ι) (w : Worker S ι)
    (pol : P) : Nat :=
  if w.action = c.numActions then
    c.polSample pol (c.predict w.network (c.encode w.state)) w.deterministic
  else w.action

/-- Line 152: `reward = environment.Sample(state, action, nextState)`. -/
def stepReward {S E P ι : Type} (c : Collab S E P ι) (w : Worker S ι)
    (pol : P) : ℚ :=
  (c.envSample w.state (resolvedAction c w pol)).1

/-- Line 152: the `nextState` produced by `environment.Sample`. -/
def stepNextState {S E P ι : Type} (c : Collab S E P ι) (w : Worker S ι)
    (pol : P) : S :=
  (c.envSample w.state (resolvedAction c w pol)).2

/-- Lines 154-156: predict action values at `nextState` with the local
network and sample `nextAction` from the policy. -/
def stepNextAction {S E P ι : Type} (c : Collab S E P ι) (w : Worker S ι)
    (pol : P) : Nat :=
  c.polSample pol (c.predict w.network (c.encode (stepNextState c w pol)))
    w.deterministic

/-- Lines 153 and 161: `terminal = environment.IsTerminal(nextState)`,
then `terminal = terminal || steps >= config.StepLimit()` where `steps`
has just been incremented (line 159). -/
def stepTerminalFlag {S E P ι : Type} (c : Collab S E P ι)
    (cfg : TrainingConfig) (w : Worker S ι) (pol : P) : Bool :=
  c.isTerminal (stepNextState c w pol) || decide (cfg.stepLimit ≤ w.steps + 1)

/-- Lines 198-218: the gradient computed for the loop iteration `i` holding
transition `t`, when the flush loop runs over `count` buffer entries:
predict the target network's action values at `t.nextState`; the bootstrap
value is that prediction at `t.nextAction` unless `terminal && i == count-1`,
in which case it is `0`; the training target is
`t.reward + Discount * bootstrap`; forward the local network at `t.state`,
overwrite the entry at `t.action` with the target, and backward-propagate. -/
def transitionGradient {S E P ι : Type} (c : Collab S E P ι)
    (cfg : TrainingConfig) (localNet targetNet : ι → ℚ) (terminal : Bool)
    (count i : Nat) (t : Transition S) : ι → ℚ :=
  let actionValue := c.predict targetNet (c.encode t.nextState)
  let bootstrap : ℚ :=
    if terminal && decide (i = count - 1) then 0 else actionValue t.nextAction
  let targetActionValue : ℚ := t.reward + cfg.discount * bootstrap
  let av := c.forward localNet (c.encode t.state)
  c.backward localNet (c.encode t.state)
    (Function.update av t.action targetActionValue)

/-- The per-iteration gradients of the flush loop (lines 194-222), in loop
order: the loop runs `for (i = 0; i < pending.size(); ++i)` over the whole
fixed-capacity buffer. -/
def perTransitionGradients {S E P ι : Type} (c : Collab S E P ι)
    (cfg : TrainingConfig) (localNet targetNet : ι → ℚ) (terminal : Bool)
    (pending : List (Transition S)) : List (ι → ℚ) :=
  pending.enum.map fun p =>
    transitionGradient c cfg localNet targetNet terminal pending.length p.1 p.2

/-- Pointwise sum of two gradient matrices (`totalGradients += gradients`,
line 221). -/
def addGrad {ι : Type} (g h : ι → ℚ) : ι → ℚ := fun j => g j + h j

/-- The zero-filled gradient accumulator (lines 192-193). -/
def zeroGrad {ι : Type} : ι → ℚ := fun _ => 0

/-- Lines 192-222: the accumulated gradient of a flush — start from zeros
and add each loop iteration's gradient in order. -/
def flushGradients {S E P ι : Type} (c : Collab S E P ι)
    (cfg : TrainingConfig) (localNet targetNet : ι → ℚ) (terminal : Bool)
    (pending : List (Transition S)) : ι → ℚ :=
  (perTransitionGradients c cfg localNet targetNet terminal pending).foldl
    addGrad zeroGrad

/-- Lines 224-228: elementwise clamp of the accumulated gradients into
`[-GradientLimit, GradientLimit]` via
`min(max(g, -GradientLimit), GradientLimit)`. -/
def clampGradient {ι : Type} (cfg : TrainingConfig) (g : ι → ℚ) : ι → ℚ :=
  fun j => min (max (g j) (-cfg.gradientLimit)) cfg.gradientLimit

/-- Lines 189-243: the flush block.  Given the local network, the shared
target and learning networks, the terminal flag, the buffer after this
call's append, and the post-increment `pendingIndex`: when
`terminal || pendingIndex >= UpdateInterval`, accumulate and clamp the
gradients, apply the optimizer to the learning network, sync the local
network from it and reset `pendingIndex` to 0; otherwise leave all three
unchanged.  Returns (learning network, local network, pendingIndex). -/
def flushBlock {S E P ι : Type} (c : Collab S E P ι) (cfg : TrainingConfig)
    (localNet targetNet learningNet : ι → ℚ) (terminal : Bool)
    (pending : List (Transition S)) (pendingIndex : Nat) :
    (ι → ℚ) × (ι → ℚ) × Nat :=
  if terminal || decide (cfg.updateInterval ≤ pendingIndex) then
    let totalGradients :=
      clampGradient cfg
        (flushGradients c cfg localNet targetNet terminal pending)
    let learning := c.updOpt learningNet cfg.stepSize totalGradients
    (learning, learning, 0)
  else
    (learningNet, localNet, pendingIndex)

/-- Lines 162-175: the deterministic-mode tail of `Step`.  `action`,
`reward`, `nextState`, `nextAction` and `terminal` are the values computed
by the preamble; `episodeReturn` and `steps` were already incremented
(lines 158-159). -/
def detFinish {S E P ι : Type} (c : Collab S E P ι) (w : Worker S ι)
    (sh : Shared P ι) (tr : ℚ) (action : Nat) (reward : ℚ) (nextState : S)
    (nextAction : Nat) (terminal : Bool) : StepResult S P ι :=
  if terminal then
    { terminated := true
      worker :=
        { resetWorker c
            { w with action := action, episodeReturn := w.episodeReturn + reward,
                     steps := w.steps + 1 } with
          network := sh.learningNetwork }
      shared := sh
      totalReward := w.episodeReturn + reward }
  else
    { terminated := false
      worker :=
        { w with state := nextState, action := nextAction,
                 episodeReturn := w.episodeReturn + reward, steps := w.steps + 1 }
      shared := sh
      totalReward := tr }

/-- Lines 177-262: the stochastic-mode tail of `Step`: increment the shared
step counter, append the transition at `pendingIndex` and increment it, run
the flush block when triggered, copy the learning network into the target
network when the post-increment counter is a multiple of
`TargetNetworkSyncInterval`, anneal the policy, and handle episode end. -/
def stochFinish {S E P ι : Type} (c : Collab S E P ι) (cfg : TrainingConfig)
    (w : Worker S ι) (sh : Shared P ι) (tr : ℚ) (action : Nat) (reward : ℚ)
    (nextState : S) (nextAction : Nat) (terminal : Bool) : StepResult S P ι :=
  let totalSteps := sh.totalSteps + 1
  let pending :=
    w.pending.set w.pendingIndex ⟨w.state, action, reward, nextState, nextAction⟩
  let fl :=
    flushBlock c cfg w.network sh.targetNetwork sh.learningNetwork terminal
      pending (w.pendingIndex + 1)
  let sh' : Shared P ι :=
    { learningNetwork := fl.1
      targetNetwork :=
        if totalSteps % cfg.targetNetworkSyncInterval = 0 then fl.1
        else sh.targetNetwork
      totalSteps := totalSteps
      policy := c.anneal sh.policy }
  if terminal then
    { terminated := true
      worker :=
        resetWorker c
          { w with action := action, network := fl.2.1,
                   episodeReturn := w.episodeReturn + reward,
                   steps := w.steps + 1, pending := pending,
                   pendingIndex := fl.2.2 }
      shared := sh'
      totalReward := w.episodeReturn + reward }
  else
    { terminated := false
      worker :=
        { state := nextState, action := nextAction, network := fl.2.1,
          episodeReturn := w.episodeReturn + reward, steps := w.steps + 1,
          pending := pending, pendingIndex := fl.2.2,
          deterministic := w.deterministic }
      shared := sh'
      totalReward := tr }

/-- `OneStepSarsaWorker::Step` (lines 137-263): resolve the action, sample
the environment, pre-select the next action, compute the terminal flag, and
dispatch on the worker's mode. -/
def Step {S E P ι : Type} (c : Collab S E P ι) (cfg : TrainingConfig)
    (w : Worker S ι) (sh : Shared P ι) (tr : ℚ) : StepResult S P ι :=
  if w.deterministic then
    detFinish c w sh tr (resolvedAction c w sh.policy)
      (stepReward c w sh.policy) (stepNextState c w sh.policy)
      (stepNextAction c w sh.policy) (stepTerminalFlag c cfg w sh.policy)
  else
    stochFinish c cfg w sh tr (resolvedAction c w sh.policy)
      (stepReward c w sh.policy) (stepNextState c w sh.policy)
      (stepNextAction c w sh.policy) (stepTerminalFlag c cfg w sh.policy)

/-- Follows the spec's words (§4.2), for comparison with the code: a flush
over `n = pendingIndex` buffered transitions processes only the first `n`
buffer entries, in insertion order, the last of which (index `n - 1`) is
the one whose bootstrap is zeroed on a terminal flush. -/
def specFlushGradients {S E P ι : Type} (c : Collab S E P ι)
    (cfg : TrainingConfig) (localNet targetNet : ι → ℚ) (terminal : Bool)
    (n : Nat) (pending : List (Transition S)) : ι → ℚ :=
  ((pending.take n).enum.map fun p =>
    transitionGradient c cfg localNet targetNet terminal n p.1 p.2).foldl
    addGrad zeroGrad

/-! ### Concrete instantiations

Small closed instantiations used to evaluate `Step` on concrete inputs:
all abstract types are `Unit`, the network has a single parameter, the
policy always picks action 0, and the optimizer adds the (step-size scaled)
gradient to the parameters. -/

/-- Concrete collaborators for the terminal-flush scenario: every state is
terminal, the environment always pays reward 1, `Predict` reports the
network's single parameter for every action, `Forward` reports 0, and
`Backward` returns the target value at action 0 as the gradient. -/
def cC1 : Collab Unit Unit Unit Unit :=
  { encode := fun _ => ()
    envSample := fun _ _ => (1, ())
    isTerminal := fun _ => true
    predict := fun net _ _ => net ()
    forward := fun _ _ _ => 0
    backward := fun _ _ av _ => av 0
    polSample := fun _ _ _ => 0
    anneal := fun _ => ()
    updOpt := fun p s g j => p j + s * g j
    numActions := 1 }

/-- Config for the terminal-flush scenarios: `UpdateInterval = 2`, so a
terminal step with one buffered transition flushes a half-full buffer. -/
def cfgC1 : TrainingConfig :=
  { stepLimit := 10, updateInterval := 2, discount := 9/10,
    gradientLimit := 100, stepSize := 1, targetNetworkSyncInterval := 1000 }

/-- A stale transition left in the buffer from a previous episode: reward 5. -/
def tStaleC1 : Transition Unit := ⟨(), 0, 5, (), 0⟩

/-- The transition appended by the `Step` call under scrutiny: reward 1. -/
def tNewC1 : Transition Unit := ⟨(), 0, 1, (), 0⟩

/-- Worker about to take its terminal step with an empty pending index but
a capacity-2 buffer still holding stale entries. -/
def wC1 : Worker Unit Unit :=
  { state := (), action := 0, network := fun _ => 0, episodeReturn := 0,
    steps := 0, pending := [tStaleC1, tStaleC1], pendingIndex := 0,
    deterministic := false }

/-- Shared state for the C1 scenario: zero networks, step counter 0. -/
def shC1 : Shared Unit Unit :=
  { learningNetwork := fun _ => 0, targetNetwork := fun _ => 0,
    totalSteps := 0, policy := () }

/-- Concrete collaborators for the wrong-slot bootstrap scenario: like
`cC1`, but the target network's single parameter is 10, making the
bootstrap value visible in the gradient. -/
def cC2 : Collab Unit Unit Unit Unit :=
  { encode := fun _ => ()
    envSample := fun _ _ => (1, ())
    isTerminal := fun _ => true
    predict := fun net _ _ => net ()
    forward := fun _ _ _ => 0
    backward := fun _ _ av _ => av 0
    polSample := fun _ _ _ => 0
    anneal := fun _ => ()
    updOpt := fun p s g j => p j + s * g j
    numActions := 1 }

/-- Stale transition for the C2 scenario; its recorded action 1 keeps its
gradient at 0 under `cC2.backward`, isolating the fresh transition's
contribution. -/
def tStaleC2 : Transition Unit := ⟨(), 1, 5, (), 0⟩

/-- The transition appended by the C2 `Step` call: reward 1, action 0. -/
def tNewC2 : Transition Unit := ⟨(), 0, 1, (), 0⟩

/-- Worker for the C2 scenario: terminal step, one buffered transition,
capacity-2 buffer. -/
def wC2 : Worker Unit Unit :=
  { state := (), action := 0, network := fun _ => 0, episodeReturn := 0,
    steps := 0, pending := [tStaleC2, tStaleC2], pendingIndex := 0,
    deterministic := false }

/-- Shared state for the C2 scenario: target network parameter 10. -/
def shC2 : Shared Unit Unit :=
  { learningNetwork := fun _ => 0, targetNetwork := fun _ => 10,
    totalSteps := 0, policy := () }

/-- Config for the C2 scenario (same shape as `cfgC1`). -/
def cfgC2 : TrainingConfig :=
  { stepLimit := 10, updateInterval := 2, discount := 9/10,
    gradientLimit := 100, stepSize := 1, targetNetworkSyncInterval := 1000 }

/-- The all-zero single-parameter network. -/
def netZero : Unit → ℚ := fun _ => 0

/-- The single-parameter network whose parameter is 10. -/
def netTen : Unit → ℚ := fun _ => 10

/-! ### Helper lemmas -/

/-- Folding `addGrad` over a list of gradients, applied at one index,
equals the starting value plus the sum of the gradients at that index. -/
theorem foldl_addGrad_apply {ι : Type} (l : List (ι → ℚ)) (g : ι → ℚ)
    (j : ι) : (l.foldl addGrad g) j = g j + (l.map fun f => f j).sum := by
  induction l generalizing g with
  | nil => simp
  | cons f t ih => simp [ih, addGrad, add_assoc]

/-- The flush accumulator at one index is the sum of the per-iteration
gradients at that index. -/
theorem flushGradients_apply {S E P ι : Type} (c : Collab S E P ι)
    (cfg : TrainingConfig) (localNet targetNet : ι → ℚ) (terminal : Bool)
    (pending : List (Transition S)) (j : ι) :
    flushGradients c cfg localNet targetNet terminal pending j =
      ((perTransitionGradients c cfg localNet targetNet terminal pending).map
        fun g => g j).sum := by
  simp [flushGradients, foldl_addGrad_apply, zeroGrad]

/-! ### Claims -/

/-- C1: the claim states that a gradient flush processes exactly the
`n = pendingIndex` currently buffered transitions and no others.  The code
violates this: the flush loop runs over `pending.size()` — the whole
fixed-capacity buffer of size `UpdateInterval` — so a terminal flush with
`pendingIndex = 1 < UpdateInterval = 2` also accumulates a gradient from
the stale buffer entry (reward 5) of slot 1.  End to end, the learning
parameter becomes `0 + (1 + 5) = 6`, while processing only the
`pendingIndex = 1` buffered transition (the spec's prescription,
`specFlushGradients` with `n = 1`) would make it `0 + 1 = 1`. -/
theorem Step_terminal_flush_processes_whole_buffer :
    (Step cC1 cfgC1 wC1 shC1 0).shared.learningNetwork () = 6 ∧
    cC1.updOpt shC1.learningNetwork cfgC1.stepSize
      (clampGradient cfgC1
        (specFlushGradients cC1 cfgC1 wC1.network shC1.targetNetwork true 1
          (wC1.pending.set 0 tNewC1))) () = 1 ∧
    (6 : ℚ) ≠ 1 := by
  refine ⟨?_, ?_, by norm_num⟩
  · simp [Step, stochFinish, flushBlock, flushGradients,
      perTransitionGradients, transitionGradient, clampGradient, addGrad,
      zeroGrad, stepTerminalFlag, stepNextState, stepReward, stepNextAction,
      resolvedAction, resetWorker, cC1, cfgC1, wC1, shC1, tStaleC1, tNewC1,
      Function.update, min_def, max_def, List.enum, List.enumFrom]
    norm_num
  · simp [specFlushGradients, transitionGradient, clampGradient, addGrad,
      zeroGrad, cC1, cfgC1, wC1, shC1, tStaleC1, tNewC1, Function.update,
      min_def, max_def]
    norm_num

/-- C2: the claim states that during a flush the bootstrap value is zeroed
exactly for the last *buffered* transition (index `pendingIndex - 1`) on a
terminal flush.  The code instead zeroes the bootstrap at loop index
`pending.size() - 1`, the last *buffer slot*.  With a terminal flush at
`pendingIndex = 1`, `UpdateInterval = 2` and a target network predicting
10: the code gives the last buffered transition (loop index 0, reward 1)
the gradient `1 + 0.9 × 10 = 10` (bootstrap not zeroed), whereas zeroing
its bootstrap as the claim requires (loop count `n = 1`, so index 0 is
last) gives `1 + 0.9 × 0 = 1`; end to end, the learning parameter becomes
10, not 1. -/
theorem Step_terminal_bootstrap_zeroes_wrong_slot :
    transitionGradient cC2 cfgC2 netZero netTen true 2 0 tNewC2 () = 10 ∧
    transitionGradient cC2 cfgC2 netZero netTen true 1 0 tNewC2 () = 1 ∧
    (Step cC2 cfgC2 wC2 shC2 0).shared.learningNetwork () = 10 ∧
    (10 : ℚ) ≠ 1 := by
  refine ⟨?_, ?_, ?_, by norm_num⟩
  · simp [transitionGradient, cC2, cfgC2, netZero, netTen, tNewC2,
      Function.update]
    norm_num
  · simp [transitionGradient, cC2, cfgC2, netZero, netTen, tNewC2,
      Function.update]
  · simp [Step, stochFinish, flushBlock, flushGradients,
      perTransitionGradients, transitionGradient, clampGradient, addGrad,
      zeroGrad, stepTerminalFlag, stepNextState, stepReward, stepNextAction,
      resolvedAction, resetWorker, cC2, cfgC2, wC2, shC2, tStaleC2, tNewC2,
      Function.update, min_def, max_def, List.enum, List.enumFrom]
    norm_num

/-- In stochastic mode `Step` is the stochastic tail applied to the
preamble's values. -/
theorem Step_stoch {S E P ι : Type} (c : Collab S E P ι)
    (cfg : TrainingConfig) (w : Worker S ι) (sh : Shared P ι) (tr : ℚ)
    (hdet : w.deterministic = false) :
    Step c cfg w sh tr =
      stochFinish c cfg w sh tr (resolvedAction c w sh.policy)
        (stepReward c w sh.policy) (stepNextState c w sh.policy)
        (stepNextAction c w sh.policy) (stepTerminalFlag c cfg w sh.policy) := by
  simp [Step, hdet]

/-- In deterministic mode `Step` is the deterministic tail applied to the
preamble's values. -/
theorem Step_det {S E P ι : Type} (c : Collab S E P ι)
    (cfg : TrainingConfig) (w : Worker S ι) (sh : Shared P ι) (tr : ℚ)
    (hdet : w.deterministic = true) :
    Step c cfg w sh tr =
      detFinish c w sh tr (resolvedAction c w sh.policy)
        (stepReward c w sh.policy) (stepNextState c w sh.policy)
        (stepNextAction c w sh.policy) (stepTerminalFlag c cfg w sh.policy) := by
  simp [Step, hdet]

/-- The shared state produced by the stochastic tail, in closed form. -/
theorem stochFinish_shared {S E P ι : Type} (c : Collab S E P ι)
    (cfg : TrainingConfig) (w : Worker S ι) (sh : Shared P ι) (tr : ℚ)
    (a : Nat) (r : ℚ) (ns : S) (na : Nat) (t : Bool) :
    (stochFinish c cfg w sh tr a r ns na t).shared =
      { learningNetwork :=
          (flushBlock c cfg w.network sh.targetNetwork sh.learningNetwork t
            (w.pending.set w.pendingIndex ⟨w.state, a, r, ns, na⟩)
            (w.pendingIndex + 1)).1
        targetNetwork :=
          if (sh.totalSteps + 1) % cfg.targetNetworkSyncInterval = 0 then
            (flushBlock c cfg w.network sh.targetNetwork sh.learningNetwork t
              (w.pending.set w.pendingIndex ⟨w.state, a, r, ns, na⟩)
              (w.pendingIndex + 1)).1
          else sh.targetNetwork
        totalSteps := sh.totalSteps + 1
        policy := c.anneal sh.policy } := by
  simp only [stochFinish]
  split <;> rfl

/-- The terminal flag returned by the stochastic tail. -/
theorem stochFinish_terminated {S E P ι : Type} (c : Collab S E P ι)
    (cfg : TrainingConfig) (w : Worker S ι) (sh : Shared P ι) (tr : ℚ)
    (a : Nat) (r : ℚ) (ns : S) (na : Nat) (t : Bool) :
    (stochFinish c cfg w sh tr a r ns na t).terminated = t := by
  cases t <;> simp [stochFinish]

/-- The terminal flag returned by the deterministic tail. -/
theorem detFinish_terminated {S E P ι : Type} (c : Collab S E P ι)
    (w : Worker S ι) (sh : Shared P ι) (tr : ℚ) (a : Nat) (r : ℚ) (ns : S)
    (na : Nat) (t : Bool) :
    (detFinish c w sh tr a r ns na t).terminated = t := by
  cases t <;> simp [detFinish]

/-- C3: in stochastic mode, when a flush is triggered (terminal step or a
full buffer), the gradient applied to the shared learning network is the
elementwise sum of the per-transition gradients of the flush loop, with
each element of that sum then clamped once into
`[-GradientLimit, +GradientLimit]` — the clamp is applied to the
accumulated sum, not to the individual gradients. -/
theorem Step_flush_clamps_after_summation {S E P ι : Type}
    (c : Collab S E P ι) (cfg : TrainingConfig) (w : Worker S ι)
    (sh : Shared P ι) (tr : ℚ) (hdet : w.deterministic = false)
    (hflush : stepTerminalFlag c cfg w sh.policy = true ∨
      cfg.updateInterval ≤ w.pendingIndex + 1) :
    (Step c cfg w sh tr).shared.learningNetwork =
      c.updOpt sh.learningNetwork cfg.stepSize (fun j =>
        min (max (((perTransitionGradients c cfg w.network sh.targetNetwork
              (stepTerminalFlag c cfg w sh.policy)
              (w.pending.set w.pendingIndex
                ⟨w.state, resolvedAction c w sh.policy,
                 stepReward c w sh.policy, stepNextState c w sh.policy,
                 stepNextAction c w sh.policy⟩)).map fun g => g j).sum)
          (-cfg.gradientLimit)) cfg.gradientLimit) := by
  have hcond : (stepTerminalFlag c cfg w sh.policy ||
      decide (cfg.updateInterval ≤ w.pendingIndex + 1)) = true := by
    rcases hflush with h | h <;> simp [h]
  have hgr : clampGradient cfg
      (flushGradients c cfg w.network sh.targetNetwork
        (stepTerminalFlag c cfg w sh.policy)
        (w.pending.set w.pendingIndex
          ⟨w.state, resolvedAction c w sh.policy, stepReward c w sh.policy,
           stepNextState c w sh.policy, stepNextAction c w sh.policy⟩)) =
      (fun j =>
        min (max (((perTransitionGradients c cfg w.network sh.targetNetwork
              (stepTerminalFlag c cfg w sh.policy)
              (w.pending.set w.pendingIndex
                ⟨w.state, resolvedAction c w sh.policy,
                 stepReward c w sh.policy, stepNextState c w sh.policy,
                 stepNextAction c w sh.policy⟩)).map fun g => g j).sum)
          (-cfg.gradientLimit)) cfg.gradientLimit) := by
    funext j
    simp [clampGradient, flushGradients_apply]
  rw [Step_stoch c cfg w sh tr hdet, stochFinish_shared]
  simp only [flushBlock, hcond, if_true, hgr]

/-- C4: the step is terminal exactly when the environment's terminal
predicate holds at the next state or the post-increment step-within-episode
counter reaches `StepLimit`; consequently the counter after any call stays
below `StepLimit` (terminal calls reset it to 0), so no episode exceeds
`StepLimit` steps. -/
theorem Step_terminal_condition {S E P ι : Type} (c : Collab S E P ι)
    (cfg : TrainingConfig) (w : Worker S ι) (sh : Shared P ι) (tr : ℚ)
    (hpos : 0 < cfg.stepLimit) :
    (Step c cfg w sh tr).terminated =
      (c.isTerminal (stepNextState c w sh.policy) ||
        decide (cfg.stepLimit ≤ w.steps + 1)) ∧
    (Step c cfg w sh tr).worker.steps < cfg.stepLimit := by
  have hterm : (Step c cfg w sh tr).terminated =
      stepTerminalFlag c cfg w sh.policy := by
    cases hd : w.deterministic
    · rw [Step_stoch c cfg w sh tr hd, stochFinish_terminated]
    · rw [Step_det c cfg w sh tr hd, detFinish_terminated]
  have hsteps : (Step c cfg w sh tr).worker.steps =
      if stepTerminalFlag c cfg w sh.policy then 0 else w.steps + 1 := by
    cases hd : w.deterministic <;>
      cases htm : stepTerminalFlag c cfg w sh.policy <;>
        simp [Step, hd, htm, stochFinish, detFinish, resetWorker]
  refine ⟨by rw [hterm, stepTerminalFlag], ?_⟩
  rw [hsteps]
  cases htm : stepTerminalFlag c cfg w sh.policy
  · have h := htm
    simp [stepTerminalFlag] at h
    simpa using h.2
  · simpa using hpos

/-- C5: in stochastic mode, starting from a valid fill index
(`pendingIndex < UpdateInterval`), a `Step` call appends the freshly built
transition at `pendingIndex`; the index becomes `pendingIndex + 1` unless
the step was terminal or the buffer filled up, in which case a flush ran
and reset it to 0 — so `pendingIndex` never exceeds `UpdateInterval`. -/
theorem Step_pendingIndex_invariant {S E P ι : Type} (c : Collab S E P ι)
    (cfg : TrainingConfig) (w : Worker S ι) (sh : Shared P ι) (tr : ℚ)
    (hdet : w.deterministic = false)
    (hlt : w.pendingIndex < cfg.updateInterval) :
    (Step c cfg w sh tr).worker.pendingIndex < cfg.updateInterval ∧
    (Step c cfg w sh tr).worker.pending =
      w.pending.set w.pendingIndex
        ⟨w.state, resolvedAction c w sh.policy, stepReward c w sh.policy,
         stepNextState c w sh.policy, stepNextAction c w sh.policy⟩ ∧
    (Step c cfg w sh tr).worker.pendingIndex =
      (if stepTerminalFlag c cfg w sh.policy = true ∨
          cfg.updateInterval ≤ w.pendingIndex + 1 then 0
       else w.pendingIndex + 1) := by
  rw [Step_stoch c cfg w sh tr hdet]
  cases htm : stepTerminalFlag c cfg w sh.policy <;>
    by_cases hcap : cfg.updateInterval ≤ w.pendingIndex + 1 <;>
      simp [stochFinish, flushBlock, resetWorker, htm, hcap] <;> omega

/-- C6: in deterministic mode, `Step` leaves every shared object untouched
and does no buffering or gradient work: on a terminal step it returns the
episode return in `totalReward`, resets the episode state and refreshes
the local network from the shared learning network; on a non-terminal step
it only advances the state and action (and the episode accumulators) and
returns false with `totalReward` untouched. -/
theorem Step_deterministic_frame {S E P ι : Type} (c : Collab S E P ι)
    (cfg : TrainingConfig) (w : Worker S ι) (sh : Shared P ι) (tr : ℚ)
    (hdet : w.deterministic = true) :
    (Step c cfg w sh tr).shared = sh ∧
    (Step c cfg w sh tr).terminated = stepTerminalFlag c cfg w sh.policy ∧
    (stepTerminalFlag c cfg w sh.policy = true →
      (Step c cfg w sh tr).worker =
        { state := w.state, action := c.numActions,
          network := sh.learningNetwork, episodeReturn := 0, steps := 0,
          pending := w.pending, pendingIndex := 0,
          deterministic := w.deterministic } ∧
      (Step c cfg w sh tr).totalReward =
        w.episodeReturn + stepReward c w sh.policy) ∧
    (stepTerminalFlag c cfg w sh.policy = false →
      (Step c cfg w sh tr).worker =
        { w with state := stepNextState c w sh.policy,
                 action := stepNextAction c w sh.policy,
                 episodeReturn := w.episodeReturn + stepReward c w sh.policy,
                 steps := w.steps + 1 } ∧
      (Step c cfg w sh tr).totalReward = tr) := by
  rw [Step_det c cfg w sh tr hdet]
  cases htm : stepTerminalFlag c cfg w sh.policy <;>
    simp [detFinish, resetWorker, htm]

/-- C7: a stochastic-mode `Step` call increments the shared step counter by
exactly one and a deterministic-mode call leaves it unchanged, so its total
increments equal the number of stochastic-mode calls. -/
theorem Step_totalSteps_increment {S E P ι : Type} (c : Collab S E P ι)
    (cfg : TrainingConfig) (w : Worker S ι) (sh : Shared P ι) (tr : ℚ) :
    (Step c cfg w sh tr).shared.totalSteps =
      sh.totalSteps + (if w.deterministic then 0 else 1) := by
  cases hd : w.deterministic
  · rw [Step_stoch c cfg w sh tr hd, stochFinish_shared]
    simp
  · rw [Step_det c cfg w sh tr hd]
    cases htm : stepTerminalFlag c cfg w sh.policy <;> simp [detFinish, htm]

/-- C8: in stochastic mode, the shared target network is overwritten with
the (current, post-flush) shared learning network exactly when the
post-increment shared step counter is a multiple of
`TargetNetworkSyncInterval`; otherwise it is unchanged. -/
theorem Step_target_sync_iff {S E P ι : Type} (c : Collab S E P ι)
    (cfg : TrainingConfig) (w : Worker S ι) (sh : Shared P ι) (tr : ℚ)
    (hdet : w.deterministic = false) :
    (Step c cfg w sh tr).shared.targetNetwork =
      (if (sh.totalSteps + 1) % cfg.targetNetworkSyncInterval = 0 then
        (Step c cfg w sh tr).shared.learningNetwork
      else sh.targetNetwork) := by
  rw [Step_stoch c cfg w sh tr hdet, stochFinish_shared]

/-- C9: the `totalReward` out-parameter is written only by calls that
return true, where it receives the episode return (the pre-call accumulator
plus this step's reward); calls returning false leave it unchanged, in both
modes. -/
theorem Step_totalReward_frame {S E P ι : Type} (c : Collab S E P ι)
    (cfg : TrainingConfig) (w : Worker S ι) (sh : Shared P ι) (tr : ℚ) :
    (Step c cfg w sh tr).totalReward =
      (if (Step c cfg w sh tr).terminated then
        w.episodeReturn + stepReward c w sh.policy
      else tr) := by
  cases hd : w.deterministic
  · rw [Step_stoch c cfg w sh tr hd]
    cases htm : stepTerminalFlag c cfg w sh.policy <;> simp [stochFinish, htm]
  · rw [Step_det c cfg w sh tr hd]
    cases htm : stepTerminalFlag c cfg w sh.policy <;> simp [detFinish, htm]

/-- C10: when a single stochastic `Step` call triggers both a flush and a
target sync, the optimizer's update (computed against the pre-call target
network) is applied to the shared learning network first, then the target
network receives exactly those post-flush parameters; the local network is
refreshed to the same parameters, and the policy is annealed. -/
theorem Step_flush_before_sync {S E P ι : Type} (c : Collab S E P ι)
    (cfg : TrainingConfig) (w : Worker S ι) (sh : Shared P ι) (tr : ℚ)
    (hdet : w.deterministic = false)
    (hflush : stepTerminalFlag c cfg w sh.policy = true ∨
      cfg.updateInterval ≤ w.pendingIndex + 1)
    (hsync : (sh.totalSteps + 1) % cfg.targetNetworkSyncInterval = 0) :
    (Step c cfg w sh tr).shared.learningNetwork =
      c.updOpt sh.learningNetwork cfg.stepSize
        (clampGradient cfg
          (flushGradients c cfg w.network sh.targetNetwork
            (stepTerminalFlag c cfg w sh.policy)
            (w.pending.set w.pendingIndex
              ⟨w.state, resolvedAction c w sh.policy, stepReward c w sh.policy,
               stepNextState c w sh.policy, stepNextAction c w sh.policy⟩))) ∧
    (Step c cfg w sh tr).shared.targetNetwork =
      (Step c cfg w sh tr).shared.learningNetwork ∧
    (Step c cfg w sh tr).worker.network =
      (Step c cfg w sh tr).shared.learningNetwork ∧
    (Step c cfg w sh tr).shared.policy = c.anneal sh.policy := by
  rw [Step_stoch c cfg w sh tr hdet]
  cases htm : stepTerminalFlag c cfg w sh.policy
  · have hcap : cfg.updateInterval ≤ w.pendingIndex + 1 := by
      rcases hflush with h | h
      · rw [htm] at h; cases h
      · exact h
    refine ⟨?_, ?_, ?_, ?_⟩ <;>
      simp [stochFinish, flushBlock, resetWorker, htm, hcap, hsync]
  · refine ⟨?_, ?_, ?_, ?_⟩ <;>
      simp [stochFinish, flushBlock, resetWorker, htm, hsync]

/-! ### Witness instantiations -/

/-- Concrete collaborators with a never-terminal environment, used to
instantiate the general theorems. -/
def cW : Collab Unit Unit Unit Unit :=
  { encode := fun _ => ()
    envSample := fun _ _ => (1, ())
    isTerminal := fun _ => false
    predict := fun net _ _ => net ()
    forward := fun _ _ _ => 0
    backward := fun _ _ av _ => av 0
    polSample := fun _ _ _ => 0
    anneal := fun _ => ()
    updOpt := fun p s g j => p j + s * g j
    numActions := 1 }

/-- Concrete config with `UpdateInterval = 1` and sync interval 1, so every
stochastic step flushes and syncs. -/
def cfgW : TrainingConfig :=
  { stepLimit := 5, updateInterval := 1, discount := 1/2,
    gradientLimit := 100, stepSize := 1, targetNetworkSyncInterval := 1 }

/-- A concrete buffered transition. -/
def tW : Transition Unit := ⟨(), 0, 0, (), 0⟩

/-- Concrete stochastic-mode worker with an empty (index-0) buffer of
capacity 1. -/
def wW : Worker Unit Unit :=
  { state := (), action := 0, network := netZero, episodeReturn := 0,
    steps := 0, pending := [tW], pendingIndex := 0, deterministic := false }

/-- The same worker in deterministic (evaluation) mode. -/
def wWdet : Worker Unit Unit := { wW with deterministic := true }

/-- Concrete shared state: zero networks, counter 0. -/
def shW : Shared Unit Unit :=
  { learningNetwork := netZero, targetNetwork := netZero, totalSteps := 0,
    policy := () }

/-- Witness for `Step_flush_clamps_after_summation` at a concrete input. -/
theorem Step_flush_clamps_after_summation_w :
    wW.deterministic = false ∧ cfgW.updateInterval ≤ wW.pendingIndex + 1 ∧
    (Step cW cfgW wW shW 0).shared.learningNetwork =
      cW.updOpt shW.learningNetwork cfgW.stepSize (fun j =>
        min (max (((perTransitionGradients cW cfgW wW.network shW.targetNetwork
              (stepTerminalFlag cW cfgW wW shW.policy)
              (wW.pending.set wW.pendingIndex
                ⟨wW.state, resolvedAction cW wW shW.policy,
                 stepReward cW wW shW.policy, stepNextState cW wW shW.policy,
                 stepNextAction cW wW shW.policy⟩)).map fun g => g j).sum)
          (-cfgW.gradientLimit)) cfgW.gradientLimit) :=
  ⟨rfl, by decide,
    Step_flush_clamps_after_summation cW cfgW wW shW 0 rfl (Or.inr (by decide))⟩

/-- Witness for `Step_terminal_condition` at a concrete input. -/
theorem Step_terminal_condition_w :
    0 < cfgW.stepLimit ∧
    ((Step cW cfgW wW shW 0).terminated =
      (cW.isTerminal (stepNextState cW wW shW.policy) ||
        decide (cfgW.stepLimit ≤ wW.steps + 1)) ∧
     (Step cW cfgW wW shW 0).worker.steps < cfgW.stepLimit) :=
  ⟨by decide, Step_terminal_condition cW cfgW wW shW 0 (by decide)⟩

/-- Witness for `Step_pendingIndex_invariant` at a concrete input. -/
theorem Step_pendingIndex_invariant_w :
    wW.deterministic = false ∧ wW.pendingIndex < cfgW.updateInterval ∧
    ((Step cW cfgW wW shW 0).worker.pendingIndex < cfgW.updateInterval ∧
     (Step cW cfgW wW shW 0).worker.pending =
       wW.pending.set wW.pendingIndex
         ⟨wW.state, resolvedAction cW wW shW.policy, stepReward cW wW shW.policy,
          stepNextState cW wW shW.policy, stepNextAction cW wW shW.policy⟩ ∧
     (Step cW cfgW wW shW 0).worker.pendingIndex =
       (if stepTerminalFlag cW cfgW wW shW.policy = true ∨
           cfgW.updateInterval ≤ wW.pendingIndex + 1 then 0
        else wW.pendingIndex + 1)) :=
  ⟨rfl, by decide, Step_pendingIndex_invariant cW cfgW wW shW 0 rfl (by decide)⟩

/-- Witness for `Step_deterministic_frame` at a concrete input. -/
theorem Step_deterministic_frame_w :
    wWdet.deterministic = true ∧
    ((Step cW cfgW wWdet shW 0).shared = shW ∧
     (Step cW cfgW wWdet shW 0).terminated =
       stepTerminalFlag cW cfgW wWdet shW.policy ∧
     (stepTerminalFlag cW cfgW wWdet shW.policy = true →
       (Step cW cfgW wWdet shW 0).worker =
         { state := wWdet.state, action := cW.numActions,
           network := shW.learningNetwork, episodeReturn := 0, steps := 0,
           pending := wWdet.pending, pendingIndex := 0,
           deterministic := wWdet.deterministic } ∧
       (Step cW cfgW wWdet shW 0).totalReward =
         wWdet.episodeReturn + stepReward cW wWdet shW.policy) ∧
     (stepTerminalFlag cW cfgW wWdet shW.policy = false →
       (Step cW cfgW wWdet shW 0).worker =
         { wWdet with state := stepNextState cW wWdet shW.policy,
                      action := stepNextAction cW wWdet shW.policy,
                      episodeReturn :=
                        wWdet.episodeReturn + stepReward cW wWdet shW.policy,
                      steps := wWdet.steps + 1 } ∧
       (Step cW cfgW wWdet shW 0).totalReward = 0)) :=
  ⟨rfl, Step_deterministic_frame cW cfgW wWdet shW 0 rfl⟩

/-- Witness for `Step_target_sync_iff` at a concrete input. -/
theorem Step_target_sync_iff_w :
    wW.deterministic = false ∧
    ((Step cW cfgW wW shW 0).shared.targetNetwork =
      (if (shW.totalSteps + 1) % cfgW.targetNetworkSyncInterval = 0 then
        (Step cW cfgW wW shW 0).shared.learningNetwork
      else shW.targetNetwork)) :=
  ⟨rfl, Step_target_sync_iff cW cfgW wW shW 0 rfl⟩

/-- Witness for `Step_flush_before_sync` at a concrete input. -/
theorem Step_flush_before_sync_w :
    wW.deterministic = false ∧ cfgW.updateInterval ≤ wW.pendingIndex + 1 ∧
    (shW.totalSteps + 1) % cfgW.targetNetworkSyncInterval = 0 ∧
    ((Step cW cfgW wW shW 0).shared.learningNetwork =
      cW.updOpt shW.learningNetwork cfgW.stepSize
        (clampGradient cfgW
          (flushGradients cW cfgW wW.network shW.targetNetwork
            (stepTerminalFlag cW cfgW wW shW.policy)
            (wW.pending.set wW.pendingIndex
              ⟨wW.state, resolvedAction cW wW shW.policy,
               stepReward cW wW shW.policy, stepNextState cW wW shW.policy,
               stepNextAction cW wW shW.policy⟩))) ∧
     (Step cW cfgW wW shW 0).shared.targetNetwork =
       (Step cW cfgW wW shW 0).shared.learningNetwork ∧
     (Step cW cfgW wW shW 0).worker.network =
       (Step cW cfgW wW shW 0).shared.learningNetwork ∧
     (Step cW cfgW wW shW 0).shared.policy = cW.anneal shW.policy) :=
  ⟨rfl, by decide, by decide,
    Step_flush_before_sync cW cfgW wW shW 0 rfl (Or.inr (by decide))
      (by decide)⟩
